import Mathlib

/-! Shallow embedding of `src/plugin.py` (mofox_period_plugin): the cycle
state calculator with its per-day cache, and the prompt / command front
ends built on it.  Python floats are modelled as rationals, `datetime.date`
values as proleptic Gregorian ordinals (`Int`, the `date.toordinal`
convention), Python's `%` on integers as `Int.fmod` (both are floored mod),
and an exception escaping a function as `Option.none`. -/

namespace Mofox

/-- The four cycle stages of `plugin.py` (the `stage` strings
"menstrual", "follicular", "ovulation", "luteal"). -/
inductive Stage
  | menstrual
  | follicular
  | ovulation
  | luteal
  deriving DecidableEq, Repr

/-- Python `round(x, 2)` modelled over ℚ: round `100 * x` to the nearest
integer and divide by 100 (Mathlib `round`, ties up; no claim below
distinguishes the tie-breaking direction). -/
def round2 (x : ℚ) : ℚ := ((round (100 * x) : ℤ) : ℚ) / 100

/-- Lines 67-72: the `base_impacts` table of `_calculate_impacts`,
as (physical, psychological) pairs. -/
def base_impacts : Stage → ℚ × ℚ
  | .menstrual => (8/10, 7/10)
  | .follicular => (1/10, 1/10)
  | .ovulation => (4/10, 2/10)
  | .luteal => (6/10, 5/10)

/-- Lines 64-97: `PeriodStateManager._calculate_impacts`.  In Python the
luteal division `day_in_stage / total_days` raises `ZeroDivisionError`
when `cycle_length = 14`; that argument combination is unreachable from
`calculate_current_state` (theorem C9 below), and ℚ division by zero
yields 0 here. -/
def calculate_impacts (stage : Stage) (current_day : Int) (cycle_length : Int) : ℚ × ℚ :=
  let physical_base := (base_impacts stage).1
  let psychological_base := (base_impacts stage).2
  match stage with
  | .menstrual =>
    let day_in_stage : ℚ := (current_day : ℚ)
    let intensity : ℚ := 1 - (day_in_stage - 1) / 5 * (3/10)
    (round2 (physical_base * intensity), round2 (psychological_base * intensity))
  | .luteal =>
    let day_in_stage : ℚ := (current_day : ℚ) - 14
    let total_days : ℚ := (cycle_length : ℚ) - 14
    let intensity : ℚ := 7/10 + day_in_stage / total_days * (3/10)
    (round2 (min (physical_base * intensity) (8/10)),
     round2 (min (psychological_base * intensity) (7/10)))
  | _ => (round2 physical_base, round2 psychological_base)

/-- Lines 38-46 of `calculate_current_state`: stage selection from the
current day index. -/
def stage_of_day (current_day : Int) : Stage :=
  if current_day ≤ 5 then .menstrual
  else if current_day ≤ 13 then .follicular
  else if current_day = 14 then .ovulation
  else .luteal

/-- Lines 99-107: `_get_stage_name_cn` (the `names` dict; every `Stage`
value is a key, so the `"未知阶段"` default is unreachable). -/
def get_stage_name_cn : Stage → String
  | .menstrual => "月经期"
  | .follicular => "卵泡期"
  | .ovulation => "排卵期"
  | .luteal => "黄体期"

/-- Lines 109-117: `_get_stage_description` (the `descriptions` dict;
every `Stage` value is a key, so the `""` default is unreachable). -/
def get_stage_description : Stage → String
  | .menstrual => "身体不适，情绪敏感，需要更多休息和理解"
  | .follicular => "精力充沛，情绪积极，思维清晰"
  | .ovulation => "状态良好，外向活泼，富有魅力"
  | .luteal => "身体疲惫，情绪波动，需要更多耐心"

/-- Gregorian leap-year rule, as used by `datetime.date`. -/
def is_leap (y : Nat) : Bool := y % 4 = 0 && (y % 100 ≠ 0 || y % 400 = 0)

/-- Length of month `m` of year `y` in the proleptic Gregorian calendar. -/
def days_in_month (y m : Nat) : Nat :=
  if m = 2 then (if is_leap y then 29 else 28)
  else if m = 4 ∨ m = 6 ∨ m = 9 ∨ m = 11 then 30
  else 31

/-- Days of year `y` strictly before month `m`. -/
def days_before_month (y m : Nat) : Nat :=
  (List.range (m - 1)).foldl (fun acc i => acc + days_in_month y (i + 1)) 0

/-- Python `datetime.date(y, m, d).toordinal()`: day 1 is 0001-01-01 in
the proleptic Gregorian calendar. -/
def toordinal (y m d : Nat) : Int :=
  (365 * (y - 1) + (y - 1) / 4 - (y - 1) / 100 + (y - 1) / 400
    + days_before_month y m + d : Nat)

/-- Split a character list at every `'-'` (so `"a-b-c"` gives three
pieces and a string without `'-'` gives one). -/
def splitOnDash : List Char → List (List Char)
  | [] => [[]]
  | c :: cs =>
    let rest := splitOnDash cs
    if c = '-' then [] :: rest
    else
      match rest with
      | [] => [[c]]
      | r :: rs => (c :: r) :: rs

/-- Read a nonempty all-digit character list as a decimal number. -/
def digitsToNat? (cs : List Char) : Option Nat :=
  if cs ≠ [] ∧ cs.all Char.isDigit then
    some (cs.foldl (fun n c => 10 * n + (c.toNat - 48)) 0)
  else none

/-- Model of `datetime.strptime(s, "%Y-%m-%d").date().toordinal()`
(line 29): a four-digit year ≥ 1, a one- or two-digit month in 1..12 and a
one- or two-digit day valid for that month, joined by `'-'`; any other
shape (including leftover text) raises `ValueError`, i.e. `none`. -/
def strptimeYMD (s : String) : Option Int :=
  match splitOnDash s.data with
  | [ys, ms, ds] =>
    match digitsToNat? ys, digitsToNat? ms, digitsToNat? ds with
    | some y, some m, some d =>
      if ys.length = 4 ∧ ms.length ≤ 2 ∧ ds.length ≤ 2
          ∧ 1 ≤ y ∧ 1 ≤ m ∧ m ≤ 12 ∧ 1 ≤ d ∧ d ≤ days_in_month y m then
        some (toordinal y m d)
      else none
    | _, _, _ => none
  | _ => none

/-- The dict built at lines 51-59 of `calculate_current_state`.  Being a
structure, every field is always present (the dict is built with all seven
keys in one expression). -/
structure CycleState where
  stage : Stage
  current_day : Int
  cycle_length : Int
  physical_impact : ℚ
  psychological_impact : ℚ
  stage_name_cn : String
  description : String
  deriving DecidableEq, Repr

/-- Lines 16-18: `PeriodStateManager.__init__` sets both fields to `None`;
`current_state = some st` models a (necessarily nonempty, hence truthy)
cached dict. -/
structure PeriodStateManager where
  last_calculated_date : Option Int
  current_state : Option CycleState
  deriving DecidableEq, Repr

/-- A freshly constructed manager: both fields `None`. -/
def PeriodStateManager.init : PeriodStateManager := ⟨none, none⟩

/-- Lines 20-62: `PeriodStateManager.calculate_current_state`.  `today`
stands for `datetime.now().date()`.  The one exception that can escape
this method is the `ZeroDivisionError` of `days_passed % cycle_length`
when `cycle_length = 0` (line 36), modelled as `none` (the manager fields
are only assigned after that line, so they are untouched then); the
`ValueError` of `strptime` is caught at lines 30-32 and replaced by the
fallback date `today - 14`.  Returns the state together with the updated
manager. -/
def calculate_current_state (m : PeriodStateManager) (today : Int)
    (last_period_date : String) (cycle_length : Int) :
    Option (CycleState × PeriodStateManager) :=
  if m.last_calculated_date = some today ∧ m.current_state.isSome then
    match m.current_state with
    | some st => some (st, m)
    | none => none
  else if cycle_length = 0 then
    none
  else
    let last_date := (strptimeYMD last_period_date).getD (today - 14)
    let days_passed := today - last_date
    let current_day := Int.fmod days_passed cycle_length + 1
    let stage := stage_of_day current_day
    let imp := calculate_impacts stage current_day cycle_length
    let st : CycleState :=
      { stage := stage
        current_day := current_day
        cycle_length := cycle_length
        physical_impact := imp.1
        psychological_impact := imp.2
        stage_name_cn := get_stage_name_cn stage
        description := get_stage_description stage }
    some (st, { last_calculated_date := some today, current_state := some st })

/-- The configuration triple read by both front ends (lines 136-138 and
215-217): `cycle.last_period_date`, `cycle.cycle_length`,
`plugin.enabled`. -/
structure Config where
  last_period_date : String
  cycle_length : Int
  enabled : Bool

/-- Lines 177-197: `_get_behavior_guidance`. -/
def get_behavior_guidance (physical psychological : ℚ) : String :=
  let g1 :=
    if 7/10 ≤ physical then "• 你可能会感到身体不适，回复时可以表现得需要更多休息和理解"
    else if 4/10 ≤ physical then "• 你可能会感到些许疲惫，回复时可以适当放慢节奏"
    else "• 你感觉身体状态良好，可以积极热情地互动"
  let g2 :=
    if 6/10 ≤ psychological then "• 你的情绪比较敏感，回复时需要更多耐心，避免冲突"
    else if 3/10 ≤ psychological then "• 你的情绪有些波动，回复时保持平和心态"
    else "• 你情绪稳定乐观，可以愉快地交流"
  g1 ++ "\n" ++ g2

/-- Lines 156-175: `_generate_prompt` (the f-string, after `.strip()`;
numeric rendering is `toString`, which no claim inspects). -/
def generate_prompt (state : CycleState) : String :=
  "你当前处于月经周期的【" ++ state.stage_name_cn ++ "】。\n"
    ++ "生理影响程度: " ++ toString state.physical_impact ++ "/1.0，心理影响程度: "
    ++ toString state.psychological_impact ++ "/1.0。\n"
    ++ "当前状态特点: " ++ state.description ++ "\n\n"
    ++ get_behavior_guidance state.physical_impact state.psychological_impact ++ "\n\n"
    ++ "请根据以上状态特点，自然地调整你的回复风格和行为表现，但不要刻意提及月经相关话题，保持对话的自然流畅。"

/-- Lines 132-154: `PeriodStatePrompt.execute`.  The surrounding
`try/except` returns `""` on any exception; the only exception on this
path is the calculator's `ZeroDivisionError` (`none` here), so `execute`
is a total function and never fails its caller. -/
def PeriodStatePrompt.execute (cfg : Config) (m : PeriodStateManager) (today : Int) :
    String × PeriodStateManager :=
  if ¬cfg.enabled ∨ cfg.last_period_date = "" then ("", m)
  else
    match calculate_current_state m today cfg.last_period_date cfg.cycle_length with
    | none => ("", m)
    | some (state, m2) => (generate_prompt state, m2)

/-- Return value and side channel of `PeriodStatusCommand.execute`: the
texts sent through `send_text`, in order, and the `Tuple[bool, str, bool]`
result. -/
structure CommandOutcome where
  sent : List String
  result : Bool × String × Bool
  deriving DecidableEq, Repr

/-- Lines 243-248: the `stage_emoji` dict (total on `Stage`, so the `"❓"`
default of `.get` is unreachable). -/
def stage_emoji : Stage → String
  | .menstrual => "🩸"
  | .follicular => "🌱"
  | .ovulation => "🥚"
  | .luteal => "🍂"

/-- Lines 241-267: `_generate_status_report` (the f-string, after
`.strip()`). -/
def generate_status_report (state : CycleState) : String :=
  stage_emoji state.stage ++ " 月经周期状态报告\n━━━━━━━━━━━━━━━━━━\n📅 当前阶段: "
    ++ state.stage_name_cn ++ "\n🔢 周期第 " ++ toString state.current_day ++ " 天 / "
    ++ toString state.cycle_length ++ " 天\n\n💊 生理影响: " ++ toString state.physical_impact
    ++ "/1.0\n💭 心理影响: " ++ toString state.psychological_impact
    ++ "/1.0\n\n📝 状态描述:\n" ++ state.description
    ++ "\n━━━━━━━━━━━━━━━━━━\n💡 提示: 这些状态会影响我的回复风格和行为表现"

/-- Lines 211-239: `PeriodStatusCommand.execute`.  The only exception that
can reach the `except` clause in this embedding is the calculator's
`ZeroDivisionError` (`none`), whose text is what the format string at
line 239 puts after 查询失败. -/
def PeriodStatusCommand.execute (cfg : Config) (m : PeriodStateManager) (today : Int) :
    CommandOutcome × PeriodStateManager :=
  if ¬cfg.enabled then
    ({ sent := ["❌ 月经周期插件未启用"], result := (true, "插件未启用", true) }, m)
  else if cfg.last_period_date = "" then
    ({ sent := ["❌ 请先配置上次月经开始日期"], result := (true, "未配置月经日期", true) }, m)
  else
    match calculate_current_state m today cfg.last_period_date cfg.cycle_length with
    | none =>
      ({ sent := ["❌ 查询状态失败，请检查配置"],
         result := (false, "查询失败: integer division or modulo by zero", true) }, m)
    | some (state, m2) =>
      ({ sent := [generate_status_report state], result := (true, "发送周期状态报告", true) }, m2)

/-- The state record and manager update produced by the compute path of
`calculate_current_state` (lines 34-59), as one value: the let-chain from
`last_date` down to the dict assigned to `self.current_state`. -/
def compute_state (today : Int) (s : String) (cl : Int) : CycleState :=
  let last_date := (strptimeYMD s).getD (today - 14)
  let days_passed := today - last_date
  let current_day := Int.fmod days_passed cl + 1
  let stage := stage_of_day current_day
  let imp := calculate_impacts stage current_day cl
  { stage := stage
    current_day := current_day
    cycle_length := cl
    physical_impact := imp.1
    psychological_impact := imp.2
    stage_name_cn := get_stage_name_cn stage
    description := get_stage_description stage }

/-- Modelled from the claim wording of C3 (the "reference definition"):
per-stage base pairs, the menstrual linear decay, the luteal growth with
stage-specific caps, follicular and ovulation unmodified, results rounded
to two decimals. -/
def impacts_spec (stage : Stage) (d : Int) (cycle_length : Int) : ℚ × ℚ :=
  match stage with
  | .menstrual =>
    let intensity : ℚ := 1 - ((d : ℚ) - 1) / 5 * (3/10)
    (round2 ((8/10) * intensity), round2 ((7/10) * intensity))
  | .follicular => (1/10, 1/10)
  | .ovulation => (4/10, 2/10)
  | .luteal =>
    let intensity : ℚ := 7/10 + (((d : ℚ) - 14) / ((cycle_length : ℚ) - 14)) * (3/10)
    (round2 (min ((6/10) * intensity) (8/10)), round2 (min ((5/10) * intensity) (7/10)))

/-- On a fresh manager the cache is cold, so for a nonzero cycle length
`calculate_current_state` runs the compute path and returns
`compute_state` together with the updated manager. -/
theorem calc_init (today : Int) (s : String) (cl : Int) (hc : cl ≠ 0) :
    calculate_current_state .init today s cl =
      some (compute_state today s cl,
            ⟨some today, some (compute_state today s cl)⟩) := by
  have h1 : ¬(PeriodStateManager.init.last_calculated_date = some today ∧
      PeriodStateManager.init.current_state.isSome) := by
    simp [PeriodStateManager.init]
  simp only [calculate_current_state, if_neg h1, if_neg hc]
  rfl

/-- Any successful call leaves the manager with today's date as cache key
and the returned state as cached record (lines 51-61; on a cache hit the
fields already hold these values). -/
theorem calc_marks_cache (m : PeriodStateManager) (today : Int) (s : String)
    (cl : Int) (st : CycleState) (m2 : PeriodStateManager)
    (h : calculate_current_state m today s cl = some (st, m2)) :
    m2.last_calculated_date = some today ∧ m2.current_state = some st := by
  unfold calculate_current_state at h
  split at h
  · rename_i hcond
    obtain ⟨st0, hst0⟩ := Option.isSome_iff_exists.mp hcond.2
    rw [hst0] at h
    simp only [Option.some.injEq, Prod.mk.injEq] at h
    obtain ⟨h1, h2⟩ := h
    subst h2
    exact ⟨hcond.1, h1 ▸ hst0⟩
  · split at h
    · exact absurd h (by simp)
    · simp only [Option.some.injEq, Prod.mk.injEq] at h
      obtain ⟨h1, h2⟩ := h
      subst h2
      exact ⟨rfl, by rw [h1]⟩

/-- A manager whose cache key is today's date and whose cached record is
nonempty returns the cached record unchanged (lines 24-26). -/
theorem calc_cache_hit (m : PeriodStateManager) (today : Int) (s : String)
    (cl : Int) (st : CycleState)
    (h1 : m.last_calculated_date = some today) (h2 : m.current_state = some st) :
    calculate_current_state m today s cl = some (st, m) := by
  unfold calculate_current_state
  rw [if_pos ⟨h1, by rw [h2]; rfl⟩, h2]

/-- C1: for every reference date string that parses as YYYY-MM-DD
(including dates after today) and every cycle length > 0, the calculator
computes `current_day = (today - referenceDate).fmod cycleLength + 1`,
which always lies in `[1, cycleLength]`. -/
theorem C1_day_index_in_range (s : String) (pd today cycle_length : Int)
    (hp : strptimeYMD s = some pd) (hc : 0 < cycle_length) :
    ∃ st m2, calculate_current_state .init today s cycle_length = some (st, m2)
      ∧ st.current_day = Int.fmod (today - pd) cycle_length + 1
      ∧ 1 ≤ st.current_day ∧ st.current_day ≤ cycle_length := by
  refine ⟨_, _, calc_init today s cycle_length hc.ne', ?_, ?_, ?_⟩
  · simp only [compute_state, hp, Option.getD_some]
  · have hcd : (compute_state today s cycle_length).current_day
        = Int.fmod (today - pd) cycle_length + 1 := by
      simp only [compute_state, hp, Option.getD_some]
    rw [hcd, Int.fmod_eq_emod _ hc.le]
    have := Int.emod_nonneg (today - pd) hc.ne'
    omega
  · have hcd : (compute_state today s cycle_length).current_day
        = Int.fmod (today - pd) cycle_length + 1 := by
      simp only [compute_state, hp, Option.getD_some]
    rw [hcd, Int.fmod_eq_emod _ hc.le]
    have := Int.emod_lt_of_pos (today - pd) hc
    omega

/-- C1 witness at a concrete input. -/
theorem C1_witness :
    ∃ st m2, calculate_current_state .init 738900 "2024-01-01" 28 = some (st, m2)
      ∧ st.current_day = Int.fmod (738900 - 738886) 28 + 1
      ∧ 1 ≤ st.current_day ∧ st.current_day ≤ 28 :=
  C1_day_index_in_range "2024-01-01" 738886 738900 28 (by decide) (by decide)

/-- C2: stage selection by fixed fenceposts (lines 38-46): day 1-5
menstrual, 6-13 follicular, 14 ovulation, above 14 luteal, with the named
boundary values. -/
theorem C2_stage_fenceposts (d : Int) :
    (1 ≤ d → d ≤ 5 → stage_of_day d = Stage.menstrual)
    ∧ (6 ≤ d → d ≤ 13 → stage_of_day d = Stage.follicular)
    ∧ (d = 14 → stage_of_day d = Stage.ovulation)
    ∧ (14 < d → stage_of_day d = Stage.luteal)
    ∧ stage_of_day 5 = Stage.menstrual ∧ stage_of_day 6 = Stage.follicular
    ∧ stage_of_day 13 = Stage.follicular ∧ stage_of_day 14 = Stage.ovulation
    ∧ stage_of_day 15 = Stage.luteal := by
  refine ⟨?_, ?_, ?_, ?_, by decide, by decide, by decide, by decide, by decide⟩
  · intro _ h5
    simp [stage_of_day, h5]
  · intro h6 h13
    have h5 : ¬(d ≤ 5) := by omega
    simp [stage_of_day, h5, h13]
  · rintro rfl
    decide
  · intro h
    have n5 : ¬(d ≤ 5) := by omega
    have n13 : ¬(d ≤ 13) := by omega
    have n14 : ¬(d = 14) := by omega
    simp [stage_of_day, n5, n13, n14]

/-- C2 witness at the boundary day 13. -/
theorem C2_witness : stage_of_day 13 = Stage.follicular :=
  (C2_stage_fenceposts 13).2.1 (by decide) (by decide)

/-- C3: `_calculate_impacts` agrees with the reference definition on every
stage, day and cycle length, and day 1 of the menstrual stage yields
exactly (0.80, 0.70). -/
theorem C3_impacts_match_spec :
    (∀ (stage : Stage) (d cycle_length : Int),
      calculate_impacts stage d cycle_length = impacts_spec stage d cycle_length)
    ∧ (∀ cycle_length : Int,
      calculate_impacts Stage.menstrual 1 cycle_length = (8/10, 7/10)) := by
  constructor
  · intro stage d cycle_length
    cases stage
    · rfl
    · show (round2 (1/10), round2 (1/10)) = ((1 : ℚ)/10, (1 : ℚ)/10)
      norm_num [round2, round_eq]
    · show (round2 (4/10), round2 (2/10)) = ((4 : ℚ)/10, (2 : ℚ)/10)
      norm_num [round2, round_eq]
    · rfl
  · intro cycle_length
    rw [show calculate_impacts Stage.menstrual 1 cycle_length =
        (round2 ((8/10) * (1 - (((1 : ℤ) : ℚ) - 1) / 5 * (3/10))),
         round2 ((7/10) * (1 - (((1 : ℤ) : ℚ) - 1) / 5 * (3/10)))) from rfl]
    norm_num [round2, round_eq]

/-- Rounding to two decimals preserves nonnegativity. -/
theorem round2_nonneg (x : ℚ) (hx : 0 ≤ x) : 0 ≤ round2 x := by
  unfold round2
  have h : (0 : ℤ) ≤ round (100 * x) := by
    rw [round_eq]
    refine Int.le_floor.mpr ?_
    push_cast
    linarith
  refine div_nonneg ?_ (by norm_num)
  exact_mod_cast h

/-- Rounding to two decimals preserves being at most one. -/
theorem round2_le_one (x : ℚ) (hx : x ≤ 1) : round2 x ≤ 1 := by
  unfold round2
  have h : round (100 * x) ≤ 100 := by
    rw [round_eq]
    have := Int.floor_lt.mpr (show (100 : ℚ) * x + 1/2 < ((101 : ℤ) : ℚ) by push_cast; linarith)
    omega
  rw [div_le_one (by norm_num)]
  exact_mod_cast h

/-- Rounding to two decimals is idempotent. -/
theorem round2_idem (x : ℚ) : round2 (round2 x) = round2 x := by
  unfold round2
  rw [show (100 : ℚ) * (((round (100 * x) : ℤ) : ℚ) / 100)
      = ((round (100 * x) : ℤ) : ℚ) by ring]
  rw [round_intCast]

set_option maxHeartbeats 1600000 in
/-- C4: over cycle lengths 20-40 and day indices in `[1, cycleLength]`,
both impact values lie in `[0, 1]` and are fixed points of rounding to two
decimal places. -/
theorem C4_impacts_bounded (cycle_length d : Int)
    (h20 : 20 ≤ cycle_length) (h40 : cycle_length ≤ 40)
    (h1 : 1 ≤ d) (hd : d ≤ cycle_length) :
    (0 ≤ (calculate_impacts (stage_of_day d) d cycle_length).1
      ∧ (calculate_impacts (stage_of_day d) d cycle_length).1 ≤ 1
      ∧ round2 (calculate_impacts (stage_of_day d) d cycle_length).1
          = (calculate_impacts (stage_of_day d) d cycle_length).1)
    ∧ (0 ≤ (calculate_impacts (stage_of_day d) d cycle_length).2
      ∧ (calculate_impacts (stage_of_day d) d cycle_length).2 ≤ 1
      ∧ round2 (calculate_impacts (stage_of_day d) d cycle_length).2
          = (calculate_impacts (stage_of_day d) d cycle_length).2) := by
  have h1q : (1 : ℚ) ≤ (d : ℚ) := by exact_mod_cast h1
  by_cases h5 : d ≤ 5
  · have h5q : (d : ℚ) ≤ 5 := by exact_mod_cast h5
    simp only [stage_of_day, if_pos h5, calculate_impacts, base_impacts]
    exact ⟨⟨round2_nonneg _ (by nlinarith), round2_le_one _ (by nlinarith), round2_idem _⟩,
           ⟨round2_nonneg _ (by nlinarith), round2_le_one _ (by nlinarith), round2_idem _⟩⟩
  · by_cases h13 : d ≤ 13
    · simp only [stage_of_day, if_neg h5, if_pos h13, calculate_impacts, base_impacts]
      refine ⟨⟨round2_nonneg _ (by norm_num), round2_le_one _ (by norm_num), round2_idem _⟩,
              ⟨round2_nonneg _ (by norm_num), round2_le_one _ (by norm_num), round2_idem _⟩⟩
    · by_cases h14 : d = 14
      · simp only [stage_of_day, if_neg h5, if_neg h13, if_pos h14,
          calculate_impacts, base_impacts]
        refine ⟨⟨round2_nonneg _ (by norm_num), round2_le_one _ (by norm_num), round2_idem _⟩,
                ⟨round2_nonneg _ (by norm_num), round2_le_one _ (by norm_num), round2_idem _⟩⟩
      · have h15q : (15 : ℚ) ≤ (d : ℚ) := by
          have h15 : (15 : ℤ) ≤ d := by omega
          exact_mod_cast h15
        have hclq : (20 : ℚ) ≤ (cycle_length : ℚ) := by exact_mod_cast h20
        have hr : (0 : ℚ) ≤ ((d : ℚ) - 14) / ((cycle_length : ℚ) - 14) :=
          div_nonneg (by linarith) (by linarith)
        simp only [stage_of_day, if_neg h5, if_neg h13, if_neg h14,
          calculate_impacts, base_impacts]
        refine ⟨⟨round2_nonneg _ ?_, round2_le_one _ ?_, round2_idem _⟩,
                ⟨round2_nonneg _ ?_, round2_le_one _ ?_, round2_idem _⟩⟩
        · exact le_min (by nlinarith) (by norm_num)
        · exact le_trans (min_le_right _ _) (by norm_num)
        · exact le_min (by nlinarith) (by norm_num)
        · exact le_trans (min_le_right _ _) (by norm_num)

/-- C4 witness at cycle length 28, day 3. -/
theorem C4_witness :
    (0 ≤ (calculate_impacts (stage_of_day 3) 3 28).1
      ∧ (calculate_impacts (stage_of_day 3) 3 28).1 ≤ 1
      ∧ round2 (calculate_impacts (stage_of_day 3) 3 28).1
          = (calculate_impacts (stage_of_day 3) 3 28).1)
    ∧ (0 ≤ (calculate_impacts (stage_of_day 3) 3 28).2
      ∧ (calculate_impacts (stage_of_day 3) 3 28).2 ≤ 1
      ∧ round2 (calculate_impacts (stage_of_day 3) 3 28).2
          = (calculate_impacts (stage_of_day 3) 3 28).2) :=
  C4_impacts_bounded 28 3 (by decide) (by decide) (by decide) (by decide)

/-- C5: when the reference date string fails to parse, the calculator does
not fail: it substitutes the fallback reference date `today - 14` and
returns a fully populated state record. -/
theorem C5_fallback_on_bad_date (s : String) (today cycle_length : Int)
    (hp : strptimeYMD s = none) (hc : 0 < cycle_length) :
    ∃ st m2, calculate_current_state .init today s cycle_length = some (st, m2)
      ∧ st.current_day = Int.fmod 14 cycle_length + 1
      ∧ st.stage = stage_of_day st.current_day
      ∧ st.cycle_length = cycle_length
      ∧ (st.physical_impact, st.psychological_impact)
          = calculate_impacts st.stage st.current_day cycle_length
      ∧ st.stage_name_cn = get_stage_name_cn st.stage
      ∧ st.description = get_stage_description st.stage := by
  refine ⟨_, _, calc_init today s cycle_length hc.ne', ?_, rfl, rfl, rfl, rfl, rfl⟩
  simp only [compute_state, hp, Option.getD_none, sub_sub_cancel]

/-- C5 witness at a concrete malformed date string. -/
theorem C5_witness :
    ∃ st m2, calculate_current_state .init 738886 "not-a-date" 28 = some (st, m2)
      ∧ st.current_day = Int.fmod 14 28 + 1
      ∧ st.stage = stage_of_day st.current_day
      ∧ st.cycle_length = 28
      ∧ (st.physical_impact, st.psychological_impact)
          = calculate_impacts st.stage st.current_day 28
      ∧ st.stage_name_cn = get_stage_name_cn st.stage
      ∧ st.description = get_stage_description st.stage :=
  C5_fallback_on_bad_date "not-a-date" 738886 28 (by decide) (by decide)

/-- C6: a second call on the same calendar date with the same inputs
returns the identical state record and leaves the manager unchanged. -/
theorem C6_same_day_cache (m : PeriodStateManager) (today : Int) (s : String)
    (cl : Int) (st : CycleState) (m2 : PeriodStateManager)
    (h : calculate_current_state m today s cl = some (st, m2)) :
    calculate_current_state m2 today s cl = some (st, m2) := by
  obtain ⟨k1, k2⟩ := calc_marks_cache m today s cl st m2 h
  exact calc_cache_hit m2 today s cl st k1 k2

/-- C6 witness: a first call on a fresh manager, then a second call on the
resulting manager the same day. -/
theorem C6_witness :
    calculate_current_state
        ⟨some 738900, some (compute_state 738900 "2024-01-01" 28)⟩
        738900 "2024-01-01" 28
      = some (compute_state 738900 "2024-01-01" 28,
              ⟨some 738900, some (compute_state 738900 "2024-01-01" 28)⟩) :=
  C6_same_day_cache .init 738900 "2024-01-01" 28 _ _
    (calc_init 738900 "2024-01-01" 28 (by decide))

/-- C7: the prompt component returns the empty string when the plugin is
disabled or no reference date is configured, and likewise when the state
computation fails; being a total function, it never raises. -/
theorem C7_prompt_empty (cfg : Config) (m : PeriodStateManager) (today : Int) :
    ((cfg.enabled = false ∨ cfg.last_period_date = "") →
      PeriodStatePrompt.execute cfg m today = ("", m))
    ∧ (calculate_current_state m today cfg.last_period_date cfg.cycle_length = none →
      PeriodStatePrompt.execute cfg m today = ("", m)) := by
  constructor
  · intro h
    unfold PeriodStatePrompt.execute
    rw [if_pos]
    rcases h with h | h
    · exact Or.inl (by simp [h])
    · exact Or.inr h
  · intro h
    unfold PeriodStatePrompt.execute
    split
    · rfl
    · rw [h]

/-- C7 witness with the plugin disabled. -/
theorem C7_witness :
    PeriodStatePrompt.execute ⟨"2024-01-01", 28, false⟩ .init 738900 = ("", .init) :=
  (C7_prompt_empty ⟨"2024-01-01", 28, false⟩ .init 738900).1 (Or.inl rfl)

/-- C8: the command checks its preconditions in order, sending a distinct
message and a successful result when disabled or unconfigured, and only a
computation failure produces the failure message with a failed result. -/
theorem C8_command_order (cfg : Config) (m : PeriodStateManager) (today : Int) :
    (cfg.enabled = false →
      PeriodStatusCommand.execute cfg m today =
        ({ sent := ["❌ 月经周期插件未启用"], result := (true, "插件未启用", true) }, m))
    ∧ (cfg.enabled = true → cfg.last_period_date = "" →
      PeriodStatusCommand.execute cfg m today =
        ({ sent := ["❌ 请先配置上次月经开始日期"], result := (true, "未配置月经日期", true) }, m))
    ∧ (cfg.enabled = true → cfg.last_period_date ≠ "" →
      calculate_current_state m today cfg.last_period_date cfg.cycle_length = none →
      PeriodStatusCommand.execute cfg m today =
        ({ sent := ["❌ 查询状态失败，请检查配置"],
           result := (false, "查询失败: integer division or modulo by zero", true) }, m))
    ∧ ("❌ 月经周期插件未启用" ≠ "❌ 请先配置上次月经开始日期"
       ∧ "❌ 月经周期插件未启用" ≠ "❌ 查询状态失败，请检查配置"
       ∧ "❌ 请先配置上次月经开始日期" ≠ "❌ 查询状态失败，请检查配置") := by
  refine ⟨?_, ?_, ?_, by decide, by decide, by decide⟩
  · intro h
    unfold PeriodStatusCommand.execute
    rw [if_pos (by simp [h])]
  · intro he hd
    unfold PeriodStatusCommand.execute
    rw [if_neg (by simp [he]), if_pos hd]
  · intro he hd hc
    unfold PeriodStatusCommand.execute
    rw [if_neg (by simp [he]), if_neg hd, hc]

/-- C8 witness with the plugin disabled. -/
theorem C8_witness :
    PeriodStatusCommand.execute ⟨"", 28, false⟩ .init 738900 =
      ({ sent := ["❌ 月经周期插件未启用"], result := (true, "插件未启用", true) },
       PeriodStateManager.init) :=
  (C8_command_order ⟨"", 28, false⟩ .init 738900).1 rfl

/-- The else branch of the stage selection (lines 45-46) is taken exactly
for day indices above 14. -/
theorem stage_luteal_iff (d : Int) : stage_of_day d = Stage.luteal ↔ 14 < d := by
  unfold stage_of_day
  split_ifs with a b c <;> simp <;> omega

/-- C9: through the public calculation path the luteal branch is reached
only for a day index of at least 15, which forces the cycle length to be
at least 15, so the luteal divisor `cycle_length - 14` is at least 1. -/
theorem C9_luteal_divisor_safe (today : Int) (s : String) (cl : Int)
    (hc : 0 < cl) (st : CycleState) (m2 : PeriodStateManager)
    (h : calculate_current_state .init today s cl = some (st, m2))
    (hl : st.stage = Stage.luteal) :
    15 ≤ st.current_day ∧ st.current_day ≤ cl ∧ 1 ≤ cl - 14 := by
  rw [calc_init today s cl hc.ne'] at h
  simp only [Option.some.injEq, Prod.mk.injEq] at h
  obtain ⟨h1, -⟩ := h
  subst h1
  have hcd : (compute_state today s cl).current_day
      = Int.fmod (today - (strptimeYMD s).getD (today - 14)) cl + 1 := rfl
  have hub : (compute_state today s cl).current_day ≤ cl := by
    rw [hcd, Int.fmod_eq_emod _ hc.le]
    have := Int.emod_lt_of_pos (today - (strptimeYMD s).getD (today - 14)) hc
    omega
  have hst : (compute_state today s cl).stage
      = stage_of_day (compute_state today s cl).current_day := rfl
  rw [hst] at hl
  have h15 : 15 ≤ (compute_state today s cl).current_day := by
    have := (stage_luteal_iff _).mp hl
    omega
  exact ⟨h15, hub, by omega⟩

/-- C9 witness: a concrete run that lands in the luteal stage. -/
theorem C9_witness :
    15 ≤ (compute_state 738900 "2024-01-01" 28).current_day
      ∧ (compute_state 738900 "2024-01-01" 28).current_day ≤ 28
      ∧ (1 : ℤ) ≤ 28 - 14 :=
  C9_luteal_divisor_safe 738900 "2024-01-01" 28 (by decide)
    (compute_state 738900 "2024-01-01" 28)
    ⟨some 738900, some (compute_state 738900 "2024-01-01" 28)⟩
    (calc_init 738900 "2024-01-01" 28 (by decide)) (by decide)

/-- C10: once a state is cached for today, a same-day call with different
arguments still returns the cached state and leaves the manager
unchanged: the new arguments are ignored. -/
theorem C10_same_day_ignores_args (m : PeriodStateManager) (today : Int)
    (s1 : String) (cl1 : Int) (s2 : String) (cl2 : Int)
    (st : CycleState) (m2 : PeriodStateManager)
    (h : calculate_current_state m today s1 cl1 = some (st, m2)) :
    calculate_current_state m2 today s2 cl2 = some (st, m2) := by
  obtain ⟨k1, k2⟩ := calc_marks_cache m today s1 cl1 st m2 h
  exact calc_cache_hit m2 today s2 cl2 st k1 k2

/-- C10 witness: a first call with one configuration, then a same-day call
with a different date string and cycle length. -/
theorem C10_witness :
    calculate_current_state
        ⟨some 738910, some (compute_state 738910 "2024-02-02" 30)⟩
        738910 "1999-12-31" 21
      = some (compute_state 738910 "2024-02-02" 30,
              ⟨some 738910, some (compute_state 738910 "2024-02-02" 30)⟩) :=
  C10_same_day_ignores_args .init 738910 "2024-02-02" 30 "1999-12-31" 21 _ _
    (calc_init 738910 "2024-02-02" 30 (by decide))

end Mofox
